import Mathlib

/-!
Verification development for the render & interaction engine of
`src/script.js` (a marketing page with a Three.js background scene).

The numeric code of the engine is embedded shallowly over `ℚ`: the
JavaScript arithmetic of the relevant functions is exact rational
arithmetic on the inputs considered here, so every definition below is a
direct transcription of the corresponding source lines, kept executable.
Stateful pieces (performance monitor, render loop, disposal) are embedded
as explicit state-passing functions on small structures whose fields are
the mutable variables the source closes over.
-/

/-- `clamp(v, a, b) = Math.max(a, Math.min(b, v))`, src/script.js line 106. -/
def clamp (v a b : ℚ) : ℚ := max a (min b v)

/-- `lerp(a, b, t) = a + (b - a) * t`, src/script.js line 110. -/
def lerp (a b t : ℚ) : ℚ := a + (b - a) * t

/-- `easeOutCubic(t) = 1 - Math.pow(1 - t, 3)`, src/script.js line 121. -/
def easeOutCubic (t : ℚ) : ℚ := 1 - (1 - t) ^ 3

/-- The uniform scale `updateTori` applies to a ring whose world position is
at Euclidean distance `d` from the pointer world point, src/script.js
lines 759-762:
`t = clamp(1 - d * 0.26, 0, 1); s = lerp(0.98, 1.14, easeOutCubic(t))`. -/
def toriScale (d : ℚ) : ℚ := lerp 0.98 1.14 (easeOutCubic (clamp (1 - d * 0.26) 0 1))

/-- For `a ≤ b` the cubes satisfy `a ^ 3 ≤ b ^ 3` (odd power is monotone). -/
lemma cube_le_cube {a b : ℚ} (h : a ≤ b) : a ^ 3 ≤ b ^ 3 := by
  nlinarith [sq_nonneg (a + b), sq_nonneg (a - b), sq_nonneg a, sq_nonneg b]

/-- `clamp v 0 1` always lands in `[0, 1]`. -/
lemma clamp01_bounds (v : ℚ) : 0 ≤ clamp v 0 1 ∧ clamp v 0 1 ≤ 1 := by
  unfold clamp
  exact ⟨le_max_left _ _, max_le (by norm_num) (min_le_left _ _)⟩

/-- C1: for every ring and frame, given the distance `d` between the ring's
position and the pointer world point, the applied uniform scale is
`lerp(0.98, 1.14, easeOutCubic(clamp(1 - d*0.26, 0, 1)))`; in particular
`d = 0` yields scale `1.14`, every `d ≥ 1/0.26` yields scale `0.98`, and the
scale is monotonically non-increasing in `d` over `[0, 1/0.26]`. -/
theorem toriScale_proximity_spec :
    toriScale 0 = 1.14 ∧
    (∀ d : ℚ, 1 / 0.26 ≤ d → toriScale d = 0.98) ∧
    (∀ d₁ d₂ : ℚ, 0 ≤ d₁ → d₁ ≤ d₂ → d₂ ≤ 1 / 0.26 → toriScale d₂ ≤ toriScale d₁) := by
  refine ⟨?_, ?_, ?_⟩
  · norm_num [toriScale, clamp, lerp, easeOutCubic]
  · intro d hd
    norm_num at hd
    have hx : (1 : ℚ) - d * 0.26 ≤ 0 := by linarith
    simp only [toriScale, clamp, lerp, easeOutCubic]
    rw [min_eq_right (by linarith : (1 : ℚ) - d * 0.26 ≤ 1), max_eq_left hx]
    norm_num
  · intro d₁ d₂ h0 h12 h2
    norm_num at h2
    have h02 : (0 : ℚ) ≤ d₂ := le_trans h0 h12
    have e1 : clamp (1 - d₁ * 0.26) 0 1 = 1 - d₁ * 0.26 := by
      unfold clamp
      rw [min_eq_right (by nlinarith), max_eq_right (by nlinarith)]
    have e2 : clamp (1 - d₂ * 0.26) 0 1 = 1 - d₂ * 0.26 := by
      unfold clamp
      rw [min_eq_right (by nlinarith), max_eq_right (by nlinarith)]
    simp only [toriScale, lerp, easeOutCubic]
    rw [e1, e2]
    have hc := cube_le_cube (show (1 : ℚ) - (1 - d₁ * 0.26) ≤ 1 - (1 - d₂ * 0.26) by nlinarith)
    nlinarith [hc]

/-- C1 witness: the theorem applied at `d = 4 ≥ 1/0.26` and at
`0 ≤ 1 ≤ 1/0.26`. -/
theorem toriScale_proximity_spec_witness :
    toriScale 4 = 0.98 ∧ toriScale 1 ≤ toriScale 0 :=
  ⟨toriScale_proximity_spec.2.1 4 (by norm_num),
   toriScale_proximity_spec.2.2 0 1 (by norm_num) (by norm_num) (by norm_num)⟩

/-- C10: after every per-frame interaction update the ring scale lies in
`[0.98, 1.14]` for every possible pointer world point, i.e. for every
distance `d ≥ 0` (a Euclidean distance is always non-negative, including
the distance to the never-moved initial pointer point `(0,0,0)`). -/
theorem toriScale_bounded (d : ℚ) (hd : 0 ≤ d) :
    0.98 ≤ toriScale d ∧ toriScale d ≤ 1.14 := by
  clear hd
  obtain ⟨h0, h1⟩ := clamp01_bounds (1 - d * 0.26)
  set u := clamp (1 - d * 0.26) 0 1 with hu
  have hw0 : (0 : ℚ) ≤ 1 - u := by linarith
  have hw1 : (1 : ℚ) - u ≤ 1 := by linarith
  have hcube0 : (0 : ℚ) ≤ (1 - u) ^ 3 := by positivity
  have hcube1 : (1 - u) ^ 3 ≤ 1 := by
    nlinarith [mul_nonneg hw0 hw0, mul_nonneg (mul_nonneg hw0 hw0) hw0, sq_nonneg (1 - u)]
  constructor <;> simp only [toriScale, lerp, easeOutCubic, ← hu] <;> nlinarith

/-- C10 witness: the bounds at distance `0`. -/
theorem toriScale_bounded_witness :
    0.98 ≤ toriScale 0 ∧ toriScale 0 ≤ 1.14 :=
  toriScale_bounded 0 le_rfl

/-- JavaScript `v || fb` for an optionally-defined numeric value: the
fallback is taken when the value is absent (`undefined`) or `0` (falsy),
as in `window.devicePixelRatio || 1`, src/script.js line 615. -/
def jsOr (v : Option ℚ) (fb : ℚ) : ℚ :=
  match v with
  | none => fb
  | some x => if x = 0 then fb else x

/-- `CFG.three.pixelRatioLimit`, src/script.js line 52. -/
def pixelRatioLimit : ℚ := 2

/-- The renderer/camera state written by `resize`: the renderer's pixel
ratio and surface size, and the camera's aspect ratio. -/
structure ViewState where
  pixelRatio : ℚ
  width : ℚ
  height : ℚ
  aspect : ℚ
deriving DecidableEq, Repr

/-- `resize()`, src/script.js lines 614-622: one pure step computing
`DPR = Math.min(devicePixelRatio || 1, 2)`, `setPixelRatio(DPR)`,
`setSize(w, h)`, `camera.aspect = w / h`, `updateProjectionMatrix()`.
All four fields are produced by this single function, so the post-state is
reached atomically: no intermediate state is observable. -/
def resize (dpr : Option ℚ) (w h : ℚ) : ViewState :=
  { pixelRatio := min (jsOr dpr 1) pixelRatioLimit
    width := w
    height := h
    aspect := w / h }

/-- C2: after every resize, for any window size and any (positive, defined)
device pixel ratio, the renderer's pixel ratio equals
`min(devicePixelRatio, 2)` and the camera's aspect equals `width / height`
exactly; the surface size and aspect are fields of the same atomically
produced post-state, which always satisfies `aspect = width / height`. -/
theorem resize_pixelRatio_aspect (dpr w h : ℚ) (hd : 0 < dpr) :
    (resize (some dpr) w h).pixelRatio = min dpr 2 ∧
    (resize (some dpr) w h).aspect = w / h ∧
    (resize (some dpr) w h).width = w ∧
    (resize (some dpr) w h).height = h ∧
    (resize (some dpr) w h).aspect =
      (resize (some dpr) w h).width / (resize (some dpr) w h).height := by
  simp [resize, jsOr, pixelRatioLimit, hd.ne.symm]

/-- C2 witness: a 800×600 window on a 3× display is clamped to pixel
ratio 2 and gets aspect 4/3. -/
theorem resize_pixelRatio_aspect_witness :
    (resize (some 3) 800 600).pixelRatio = min 3 2 ∧
    (resize (some 3) 800 600).aspect = 800 / 600 ∧
    (resize (some 3) 800 600).width = 800 ∧
    (resize (some 3) 800 600).height = 600 ∧
    (resize (some 3) 800 600).aspect =
      (resize (some 3) 800 600).width / (resize (some 3) 800 600).height :=
  resize_pixelRatio_aspect 3 800 600 (by norm_num)

/-- The mutable state of the `Perf` module, src/script.js lines 271-273:
`last` (window-start timestamp), `frames` (rolling counter), `fps`. -/
structure PerfState where
  last : ℚ
  frames : ℕ
  fps : ℤ
deriving DecidableEq, Repr

/-- `Perf.frameTick`, src/script.js lines 274-281 (the counter/fps logic;
the DOM/telemetry writes of lines 282-297 are modelled separately):
`frames++; dt = t - last; if (dt >= 1000) { fps = Math.round(frames*1000/dt);
frames = 0; last = t; }`. JavaScript `Math.round` is `⌊x + 1/2⌋`, which is
Mathlib's `round`. -/
def frameTick (s : PerfState) (t : ℚ) : PerfState :=
  let frames := s.frames + 1
  let dt := t - s.last
  if 1000 ≤ dt then
    { last := t, frames := 0, fps := round ((frames : ℚ) * 1000 / dt) }
  else
    { s with frames := frames }

/-- C3: each tick increments the frame counter; whenever the elapsed window
is ≥ 1000ms the monitor reports `fps = round(frameCount·1000/windowDuration)`
and resets both the counter and the window start; 60 ticks over a 1000ms
window yield fps 60 and 30 ticks over 1000ms yield fps 30. -/
theorem frameTick_fps (s : PerfState) (t : ℚ) :
    (1000 ≤ t - s.last →
      frameTick s t =
        ⟨t, 0, round (((s.frames : ℚ) + 1) * 1000 / (t - s.last))⟩) ∧
    (t - s.last < 1000 → frameTick s t = ⟨s.last, s.frames + 1, s.fps⟩) ∧
    (frameTick ⟨0, 59, 0⟩ 1000).fps = 60 ∧
    (frameTick ⟨0, 29, 0⟩ 1000).fps = 30 := by
  refine ⟨?_, ?_, ?_, ?_⟩
  · intro h
    simp only [frameTick]
    rw [if_pos h]
    push_cast
    rfl
  · intro h
    simp only [frameTick]
    rw [if_neg (by linarith)]
  · simp only [frameTick]
    norm_num [round_eq]
  · simp only [frameTick]
    norm_num [round_eq]

/-- C3 witness: the window-crossing branch applied at the concrete state
`{last := 0, frames := 59}` ticked at `t = 1000` (the 60th frame of a
1000ms window) reports fps 60 and resets the counter and window. -/
theorem frameTick_fps_witness :
    frameTick ⟨0, 59, 0⟩ 1000 = ⟨1000, 0, 60⟩ := by
  have h := (frameTick_fps ⟨0, 59, 0⟩ 1000).1 (by norm_num)
  rw [h]
  norm_num [round_eq]

/-- The mutable state of the render loop closure, src/script.js line 787:
`let lastTime = now()`. -/
structure LoopState where
  lastTime : ℚ
deriving DecidableEq, Repr

/-- One iteration of `renderLoop`, src/script.js lines 788-793:
`const t = now(); const dt = t - lastTime; lastTime = t; animateThree(dt)`.
Returns the `dt` passed to the scene update together with the new loop
state. Note the source applies no clamping to `dt`. -/
def renderLoopStep (s : LoopState) (t : ℚ) : ℚ × LoopState :=
  (t - s.lastTime, ⟨t⟩)

/-- C4 counterexample: the claim says a negative timestamp difference is
clamped to `dt = 0` and the `dt` passed to the scene update is never
negative; but `renderLoop` performs no clamping, so at `lastTime = 5` and
a tick at `t = 3` the `dt` passed to `animateThree` is `-2`, which is
negative and not `0`. -/
theorem renderLoop_dt_not_clamped :
    (renderLoopStep ⟨5⟩ 3).1 = -2 ∧ (renderLoopStep ⟨5⟩ 3).1 < 0 := by
  constructor <;> norm_num [renderLoopStep]

/-- C4 amended: the per-frame `dt` is the raw difference `t - lastTime`
with no clamping — a negative difference is passed through unchanged — and
the `dt` passed to the scene update is non-negative exactly when the tick
timestamps are non-decreasing (as they are for the monotonic clock the
source reads). -/
theorem renderLoop_dt_eq_diff (s : LoopState) (t : ℚ) :
    (renderLoopStep s t).1 = t - s.lastTime ∧
    (s.lastTime ≤ t → 0 ≤ (renderLoopStep s t).1) := by
  refine ⟨rfl, fun h => ?_⟩
  simp only [renderLoopStep]
  linarith

/-- C4 amended witness: the theorem at `lastTime = 1`, `t = 4`. -/
theorem renderLoop_dt_eq_diff_witness :
    0 ≤ (renderLoopStep ⟨1⟩ 4).1 :=
  (renderLoop_dt_eq_diff ⟨1⟩ 4).2 (by norm_num)

/-- The observable state of the `setupThree` closure relevant to ticking
and disposal: `elapsed` and the ring-0 z-rotation are scene state mutated
by `animateThree`/`updateTori` (src/script.js lines 770-780, 763),
`lastTime` is the loop clock (line 787), `drawCalls` counts
`renderer.render` invocations (line 782), and `releaseAttempts` counts the
`dispose()` calls issued on GPU resources (lines 806-815). -/
structure ThreeApp where
  elapsed : ℚ
  rotZ0 : ℚ
  lastTime : ℚ
  drawCalls : ℕ
  releaseAttempts : ℕ
deriving DecidableEq, Repr

/-- The number of resource-release calls one `dispose()` performs,
src/script.js lines 806-815: `renderer.dispose()`, `particlesGeo.dispose()`,
`particleSystem.material.dispose()`, and geometry + material for each of
the 9 tori: `3 + 9 * 2 = 21`. -/
def disposeAttemptCount : ℕ := 3 + 9 * 2

/-- `dispose`, src/script.js lines 806-815: it unconditionally issues the
21 resource-release calls and touches nothing else — in particular it sets
no disposed flag and does not stop the render loop (no such state exists
in the source). -/
def dispose (a : ThreeApp) : ThreeApp :=
  { a with releaseAttempts := a.releaseAttempts + disposeAttemptCount }

/-- One tick of `renderLoop`/`animateThree`, src/script.js lines 770-793,
projected to the fields of `ThreeApp`: `dt = t - lastTime; lastTime = t;`
then `elapsed += dt` (line 772), ring 0 gains `rotation.z += 0.002`
(line 763, index 0: `0.002 + 0.002 * (0 % 3)`), and `renderer.render` is
invoked (line 782). The source consults no disposal state anywhere on this
path. -/
def tick (a : ThreeApp) (t : ℚ) : ThreeApp :=
  let dt := t - a.lastTime
  { a with
    lastTime := t
    elapsed := a.elapsed + dt
    rotZ0 := a.rotZ0 + 0.002
    drawCalls := a.drawCalls + 1 }

/-- C5 counterexample: the claim says every tick delivered after
`dispose()` is a no-op that changes no scene state and issues no draw
call; but ticking the freshly disposed initial state at `t = 7` advances
`elapsed` to 7, spins ring 0, and issues a draw call — the state is not
left unchanged. -/
theorem tick_after_dispose_not_noop :
    (tick (dispose ⟨0, 0, 0, 0, 0⟩) 7).drawCalls = 1 ∧
    (tick (dispose ⟨0, 0, 0, 0, 0⟩) 7).elapsed = 7 ∧
    (tick (dispose ⟨0, 0, 0, 0, 0⟩) 7).rotZ0 = 0.002 ∧
    tick (dispose ⟨0, 0, 0, 0, 0⟩) 7 ≠ dispose ⟨0, 0, 0, 0, 0⟩ := by
  refine ⟨rfl, by norm_num [tick, dispose], by norm_num [tick, dispose], ?_⟩
  intro h
  have := congrArg ThreeApp.drawCalls h
  simp [tick, dispose] at this

/-- C5 amended: `dispose()` only releases resources; it does not stop the
loop and there is no `Disposed` state, so a tick after disposal behaves
exactly like a tick before it: ticking and disposing commute, and a
post-dispose tick still advances the scene state and issues one draw
call. -/
theorem tick_ignores_dispose (a : ThreeApp) (t : ℚ) :
    tick (dispose a) t = dispose (tick a t) ∧
    (tick (dispose a) t).drawCalls = a.drawCalls + 1 ∧
    (tick (dispose a) t).elapsed = a.elapsed + (t - a.lastTime) := by
  refine ⟨rfl, rfl, rfl⟩

/-- C8 counterexample: the claim says a second `dispose()` performs no
additional resource-release attempts beyond those of the first call; but
`dispose` is unguarded, so two calls on the initial state perform 42
release attempts, more than the 21 of a single call. -/
theorem dispose_twice_more_attempts :
    (dispose (dispose ⟨0, 0, 0, 0, 0⟩)).releaseAttempts = 42 ∧
    (dispose (dispose ⟨0, 0, 0, 0, 0⟩)).releaseAttempts ≠
      (dispose ⟨0, 0, 0, 0, 0⟩).releaseAttempts := by
  constructor <;> norm_num [dispose, disposeAttemptCount]

/-- C8 amended: `dispose()` is not idempotent in attempts — each call
unconditionally performs the full set of 21 resource-release calls, so a
second call repeats all 21 of them (each underlying Three.js release is
itself safe to repeat, so no error is raised, but the attempts do
recur). -/
theorem dispose_repeats_release_attempts (a : ThreeApp) :
    (dispose a).releaseAttempts = a.releaseAttempts + 21 ∧
    (dispose (dispose a)).releaseAttempts = a.releaseAttempts + 2 * 21 := by
  constructor <;> simp [dispose, disposeAttemptCount]

/-- The triangle-count text written by `Perf.frameTick` when a sample is
emitted, src/script.js lines 283-289: at the only call site (line 783) the
renderer is always passed, so the element is overwritten on every sample:
reading `renderer.info.render.triangles` successfully writes the number
(`|| 0` only substitutes 0 for a missing value, and the count is a number
here), and a throwing read is caught and writes the marker `—`. `none`
models the unavailable (throwing) read. -/
def trisText (readTris : Option ℤ) : String :=
  match readTris with
  | some v => toString v
  | none => "—"

/-- The heap-usage text written by `Perf.frameTick` when a sample is
emitted, src/script.js lines 290-297: when
`performance.memory.usedJSHeapSize` is available the rounded MB figure is
written, otherwise the marker `—`. `none` models the absent platform
source; `some u` carries the used heap size in bytes. -/
def memText (usedBytes : Option ℚ) : String :=
  match usedBytes with
  | some u => toString (round (u / 1024 / 1024)) ++ "MB"
  | none => "—"

/-- One emitted telemetry sample as a pair of displayed texts
(triangles, memory). `prev` is the pair of texts currently displayed; the
source overwrites both elements on every sample, so the result never
depends on it. -/
def emitSample (prev : String × String) (readTris : Option ℤ)
    (usedBytes : Option ℚ) : String × String :=
  (trisText readTris, memText usedBytes)

/-- C6: whenever a sample is emitted with the triangle count or the heap
source unavailable, the corresponding field displays the explicit marker
`—`; and the emitted pair is independent of whatever was displayed before,
so it is never a stale previous value and never a fabricated number. -/
theorem emitSample_unavailable_marker (p q : String × String)
    (readTris : Option ℤ) (usedBytes : Option ℚ) :
    emitSample p readTris usedBytes = emitSample q readTris usedBytes ∧
    (readTris = none → (emitSample p readTris usedBytes).1 = "—") ∧
    (usedBytes = none → (emitSample p readTris usedBytes).2 = "—") := by
  refine ⟨rfl, ?_, ?_⟩ <;> rintro rfl <;> rfl

/-- C6 witness: with both sources unavailable, a sample emitted over the
previously displayed pair `("123", "45MB")` shows both markers. -/
theorem emitSample_unavailable_marker_witness :
    (emitSample ("123", "45MB") none none).1 = "—" ∧
    (emitSample ("123", "45MB") none none).2 = "—" :=
  ⟨(emitSample_unavailable_marker ("123", "45MB") ("", "") none none).2.1 rfl,
   (emitSample_unavailable_marker ("123", "45MB") ("", "") none none).2.2 rfl⟩

/-- A 3D vector with rational coordinates. -/
structure Vec3 where
  x : ℚ
  y : ℚ
  z : ℚ
deriving DecidableEq, Repr

/-- A ray with an origin and a direction, as built by
`ray.setFromCamera(pointer, camera)` in `onPointerMove`,
src/script.js line 749. -/
structure Ray3 where
  origin : Vec3
  dir : Vec3
deriving DecidableEq, Repr

/-- The point at parameter `t` along a ray (`THREE.Ray.at`). -/
def rayAt (r : Ray3) (t : ℚ) : Vec3 :=
  ⟨r.origin.x + t * r.dir.x, r.origin.y + t * r.dir.y, r.origin.z + t * r.dir.z⟩

/-- `THREE.Ray.distanceToPlane` specialised to the plane `z = 0`
(normal `(0,0,1)`, constant `0`) used by `onPointerMove`,
src/script.js lines 750-751: a zero denominator (`dir.z = 0`) intersects
only if the origin already lies on the plane; otherwise
`t = -origin.z / dir.z`, valid only when `t ≥ 0` (the plane is in front of
the ray). `none` means no intersection. -/
def distanceToPlaneZ (r : Ray3) : Option ℚ :=
  if r.dir.z = 0 then
    if r.origin.z = 0 then some 0 else none
  else
    let t := -r.origin.z / r.dir.z
    if 0 ≤ t then some t else none

/-- `THREE.Ray.intersectPlane` against the plane `z = 0`: the intersection
point when one exists. When it returns `none` the target vector passed by
the caller is left untouched. -/
def intersectPlaneZ (r : Ray3) : Option Vec3 :=
  (distanceToPlaneZ r).map (rayAt r)

/-- `onPointerMove`, src/script.js lines 745-752, projected to the shared
pointer world point: `ray.ray.intersectPlane(planeZ, pointer3D)` writes
`pointer3D` only on a hit; on a miss the previous value stays in place. -/
def onPointerMove (prevWorld : Vec3) (r : Ray3) : Vec3 :=
  match intersectPlaneZ r with
  | some p => p
  | none => prevWorld

/-- C7: a pointer-move event whose view ray does not intersect the plane
`z = 0` leaves the stored pointer world point exactly at its previous
value (never cleared to a sentinel), and only events whose ray does
intersect the plane change it (to the intersection point). -/
theorem onPointerMove_retains (prevWorld : Vec3) (r : Ray3) :
    (intersectPlaneZ r = none → onPointerMove prevWorld r = prevWorld) ∧
    (∀ p : Vec3, intersectPlaneZ r = some p → onPointerMove prevWorld r = p) := by
  constructor
  · intro h
    simp [onPointerMove, h]
  · intro p h
    simp [onPointerMove, h]

/-- C7 witness: a ray from `(0,0,5)` pointing away from the plane
(direction `(0,0,1)`) misses, and the stored point `(1,2,3)` is retained;
the same origin with direction `(0,0,-1)` hits the plane at `(0,0,0)` and
the stored point becomes that intersection. -/
theorem onPointerMove_retains_witness :
    onPointerMove ⟨1, 2, 3⟩ ⟨⟨0, 0, 5⟩, ⟨0, 0, 1⟩⟩ = ⟨1, 2, 3⟩ ∧
    onPointerMove ⟨1, 2, 3⟩ ⟨⟨0, 0, 5⟩, ⟨0, 0, -1⟩⟩ = ⟨0, 0, 0⟩ :=
  ⟨(onPointerMove_retains ⟨1, 2, 3⟩ ⟨⟨0, 0, 5⟩, ⟨0, 0, 1⟩⟩).1
     (by norm_num [intersectPlaneZ, distanceToPlaneZ]),
   (onPointerMove_retains ⟨1, 2, 3⟩ ⟨⟨0, 0, 5⟩, ⟨0, 0, -1⟩⟩).2 ⟨0, 0, 0⟩
     (by norm_num [intersectPlaneZ, distanceToPlaneZ, rayAt])⟩

/-- JavaScript `a % b` for `a ≥ 0`, `b > 0` (the only case arising below),
where it agrees with the floored remainder `a - b * ⌊a / b⌋`. -/
def jsMod (a b : ℚ) : ℚ := a - b * ⌊a / b⌋

/-- The hue of the material of torus `i` in `buildTori`, src/script.js
line 657: `(0.55 + (i / count) * 0.25) % 1` with `count = 9`. -/
def torusHue (i : ℕ) : ℚ := jsMod (0.55 + ((i : ℚ) / 9) * 0.25) 1

/-- C9: for every ring index `i < 9` the hue is the deterministic value
`(0.55 + (i/9)·0.25) mod 1`; on this cluster the mod-1 reduction is the
identity, so the hues sweep exactly the fixed 0.25-wide arc starting at
0.55 (staying strictly below 0.8, hence below the 1.0 wraparound), and
equal indices trivially yield equal hues since the hue is a function of
the index alone. -/
theorem torusHue_arc (i : ℕ) (hi : i < 9) :
    torusHue i = 0.55 + ((i : ℚ) / 9) * 0.25 ∧
    0.55 ≤ torusHue i ∧ torusHue i < 0.8 := by
  have h8 : (i : ℚ) ≤ 8 := by exact_mod_cast Nat.lt_succ_iff.mp hi
  have h0 : (0 : ℚ) ≤ (i : ℚ) := Nat.cast_nonneg i
  have hfloor : ⌊(0.55 + ((i : ℚ) / 9) * 0.25) / 1⌋ = 0 := by
    rw [div_one, Int.floor_eq_zero_iff, Set.mem_Ico]
    constructor <;> nlinarith
  have heq : torusHue i = 0.55 + ((i : ℚ) / 9) * 0.25 := by
    unfold torusHue jsMod
    rw [hfloor]
    ring
  refine ⟨heq, ?_, ?_⟩ <;> rw [heq] <;> nlinarith

/-- C9 witness: ring 0 has hue exactly 0.55. -/
theorem torusHue_arc_witness :
    torusHue 0 = 0.55 + (((0 : ℕ) : ℚ) / 9) * 0.25 ∧
    0.55 ≤ torusHue 0 ∧ torusHue 0 < 0.8 :=
  torusHue_arc 0 (by norm_num)
